import Mathlib

/-!
Shallow embedding of the mapsy-settings panel: the widget configuration
data model (services/api.ts), the Wix integration module
(wix-integration.ts) and the compact settings panel component
(WidgetSettingsCompact.tsx), together with theorems settling the claims
about them.
-/

namespace Mapsy

/-- The TypeScript union type for defaultView, the two string literals
map and list. -/
inductive DefaultView where
  | map
  | list
deriving DecidableEq, Repr

/-- AuthInfo from services/api.ts. -/
structure AuthInfo where
  instanceId : Option String
  compId : Option String
  instanceToken : Option String
  isAuthenticated : Bool
deriving DecidableEq, Repr

/-- WidgetConfig from services/api.ts: seven display fields plus the
optional auth field. -/
structure WidgetConfig where
  defaultView : DefaultView
  showHeader : Bool
  headerTitle : String
  mapZoomLevel : Int
  primaryColor : String
  showWidgetName : Bool
  widgetName : String
  auth : Option AuthInfo := none
deriving DecidableEq, Repr

/-- Spec-side definition for the refinement claim C1: exactly the display
options the spec names (default view, header visibility and title, map
zoom level, theme color, widget name and its visibility flag), following
the words of the spec. -/
structure SpecDisplayOptions where
  defaultView : DefaultView
  showHeader : Bool
  headerTitle : String
  mapZoomLevel : Int
  primaryColor : String
  showWidgetName : Bool
  widgetName : String
deriving DecidableEq, Repr

/-- Projection of a WidgetConfig record onto the display options the spec
names. -/
def toDisplayOptions (c : WidgetConfig) : SpecDisplayOptions :=
  { defaultView := c.defaultView
    showHeader := c.showHeader
    headerTitle := c.headerTitle
    mapZoomLevel := c.mapZoomLevel
    primaryColor := c.primaryColor
    showWidgetName := c.showWidgetName
    widgetName := c.widgetName }

/-- The built-in default configuration of WidgetSettingsCompact. -/
def defaultConfig : WidgetConfig :=
  { defaultView := DefaultView.map
    showHeader := false
    headerTitle := "Our Locations"
    mapZoomLevel := 12
    primaryColor := "#3B82F6"
    showWidgetName := false
    widgetName := ""
    auth := none }

/-- A configuration record carrying a non-null auth field, as the panel
holds after fetchConfig stores server data that includes auth. -/
def cfgWithAuth : WidgetConfig :=
  { defaultConfig with
      auth := some { instanceId := some "inst-1", compId := some "comp-1",
                     instanceToken := some "tok-1", isAuthenticated := true } }

/-- A second literal with the same fields as cfgWithAuth. -/
def cfgWithAuthCopy : WidgetConfig :=
  { defaultConfig with
      auth := some { instanceId := some "inst-1", compId := some "comp-1",
                     instanceToken := some "tok-1", isAuthenticated := true } }

/-! ## JSON serialisation (JSON.stringify as used on WidgetConfig) -/

def quoteStr (s : String) : String := "\"" ++ s ++ "\""

def viewStr : DefaultView → String
  | DefaultView.map => "map"
  | DefaultView.list => "list"

def boolStr (b : Bool) : String := if b then "true" else "false"

def optStr : Option String → String
  | some s => quoteStr s
  | none => "null"

def stringifyAuth (a : AuthInfo) : String :=
  "\x7b" ++ quoteStr "instanceId" ++ ":" ++ optStr a.instanceId ++ ","
         ++ quoteStr "compId" ++ ":" ++ optStr a.compId ++ ","
         ++ quoteStr "instanceToken" ++ ":" ++ optStr a.instanceToken ++ ","
         ++ quoteStr "isAuthenticated" ++ ":" ++ boolStr a.isAuthenticated ++ "\x7d"

def stringifyConfig (c : WidgetConfig) : String :=
  "\x7b" ++ quoteStr "defaultView" ++ ":" ++ quoteStr (viewStr c.defaultView) ++ ","
         ++ quoteStr "showHeader" ++ ":" ++ boolStr c.showHeader ++ ","
         ++ quoteStr "headerTitle" ++ ":" ++ quoteStr c.headerTitle ++ ","
         ++ quoteStr "mapZoomLevel" ++ ":" ++ toString c.mapZoomLevel ++ ","
         ++ quoteStr "primaryColor" ++ ":" ++ quoteStr c.primaryColor ++ ","
         ++ quoteStr "showWidgetName" ++ ":" ++ boolStr c.showWidgetName ++ ","
         ++ quoteStr "widgetName" ++ ":" ++ quoteStr c.widgetName
         ++ (match c.auth with
             | some a => "," ++ quoteStr "auth" ++ ":" ++ stringifyAuth a
             | none => "")
         ++ "\x7d"

/-! ## Widget configuration propagation (wix-integration.ts,
updateWidgetProperty and updateWidgetConfig) -/

/-- The message object posted by updateWidgetConfig. -/
structure Msg where
  msgType : String
  config : WidgetConfig
  source : String
  timestamp : Nat
deriving DecidableEq, Repr

/-- A target of a postMessage call: the parent window or the i-th frame
of window.parent.frames. -/
inductive Target where
  | parentWindow
  | frame (i : Nat)
deriving DecidableEq, Repr

/-- An observable side effect of the propagation code: an invocation of
widget.setProp, or an invocation of postMessage on a target. -/
inductive Ev where
  | setPropCall (prop : String) (value : String)
  | post (t : Target) (m : Msg)
deriving DecidableEq, Repr

/-- Environment for one call of updateWidgetConfig: availability and
behaviour of the SDK setter, the parent window, and the frames of
window.parent.frames (true means postMessage on that frame throws a
cross-origin error). -/
structure PushEnv where
  widgetSetPropAvail : Bool
  setPropThrows : Bool
  hasParent : Bool
  parentPostThrows : Bool
  frameThrows : List Bool
  now : Nat
deriving DecidableEq, Repr

/-- updateWidgetProperty: returns false when the client or setProp is
unavailable, calls setProp otherwise and returns false when it throws,
true when it completes; second component is the trace of effects. -/
def updateWidgetProperty (env : PushEnv) (prop : String) (value : String) :
    Bool × List Ev :=
  if env.widgetSetPropAvail then
    if env.setPropThrows then (false, [Ev.setPropCall prop value])
    else (true, [Ev.setPropCall prop value])
  else (false, [])

/-- The message built inside updateWidgetConfig. -/
def configMsg (env : PushEnv) (cfg : WidgetConfig) : Msg :=
  { msgType := "MAPSY_CONFIG_UPDATE", config := cfg,
    source := "settings-panel", timestamp := env.now }

/-- The postMessage attempts on the frames of window.parent.frames: every
frame is attempted, and a throw from an individual frame is caught and
ignored. -/
def framePosts (env : PushEnv) (m : Msg) : List Ev :=
  (List.range env.frameThrows.length).map (fun i => Ev.post (Target.frame i) m)

/-- updateWidgetConfig: first updateWidgetProperty with the JSON-encoded
config, then the postMessage broadcast inside a try block whose only
throwing statement is window.parent.postMessage; when that throws the
function returns the SDK result, otherwise true. -/
def updateWidgetConfig (env : PushEnv) (cfg : WidgetConfig) : Bool × List Ev :=
  let w := updateWidgetProperty env "config" (stringifyConfig cfg)
  let m := configMsg env cfg
  if env.hasParent then
    if env.parentPostThrows then
      (w.1, w.2 ++ [Ev.post Target.parentWindow m])
    else
      (true, w.2 ++ [Ev.post Target.parentWindow m] ++ framePosts env m)
  else
    (true, w.2)

/-- The wixResult value computed at the top of updateWidgetConfig. -/
def wixResult (env : PushEnv) (cfg : WidgetConfig) : Bool :=
  (updateWidgetProperty env "config" (stringifyConfig cfg)).1

/-! ## REST API layer (services/api.ts) -/

/-- An opaque parsed JSON document, the value produced by the platform
call response.json. -/
structure JVal where
  raw : String
deriving DecidableEq, Repr

/-- The body of an HTTP request: none, a JSON string, or FormData. -/
inductive RequestBody where
  | empty
  | jsonText (s : String)
  | form (fields : List (String × String))
deriving DecidableEq, Repr

/-- The request handed to fetchWithAuth by the api layer. -/
structure ApiRequest where
  url : String
  method : String
  headers : List (String × String)
  body : RequestBody
deriving DecidableEq, Repr

/-- A response as observed by the api layer: the ok flag, the status,
the text body and the parsed JSON body. -/
structure ApiResponse where
  ok : Bool
  status : Nat
  text : String
  jsonBody : JVal
deriving DecidableEq, Repr

/-- The transport underlying an api call (the fetchWithAuth function the
module imports). -/
def Transport := ApiRequest → ApiResponse

/-- The RequestInit options passed by the service functions. -/
structure RequestOptions where
  method : String
  headers : List (String × String) := []
  body : RequestBody := RequestBody.empty
deriving DecidableEq, Repr

/-- apiRequest: builds the URL from the base API URL and the endpoint,
performs the request, throws an Error with the status and response text
when the response is not ok, returns the parsed JSON body otherwise.
The request issued is returned alongside the outcome. -/
def apiRequest (apiUrl : String) (t : Transport) (endpoint : String)
    (opts : RequestOptions) : ApiRequest × Except String JVal :=
  let req : ApiRequest :=
    { url := apiUrl ++ endpoint, method := opts.method,
      headers := opts.headers, body := opts.body }
  let r := t req
  (req,
   if r.ok then Except.ok r.jsonBody
   else Except.error ("API Error (" ++ toString r.status ++ "): " ++ r.text))

/-- apiFormDataRequest: like apiRequest but with a FormData body, no
Content-Type header, and the X-Wix-Comp-Id header when a compId is
known. -/
def apiFormDataRequest (apiUrl : String) (t : Transport)
    (compId : Option String) (endpoint : String)
    (formData : List (String × String)) (method : String) :
    ApiRequest × Except String JVal :=
  let hdrs : List (String × String) :=
    match compId with
    | some c => [("X-Wix-Comp-Id", c)]
    | none => []
  let req : ApiRequest :=
    { url := apiUrl ++ endpoint, method := method,
      headers := hdrs, body := RequestBody.form formData }
  let r := t req
  (req,
   if r.ok then Except.ok r.jsonBody
   else Except.error ("API Error (" ++ toString r.status ++ "): " ++ r.text))

namespace locationService

/-- locationService.getAll: GET /locations. -/
def getAll (apiUrl : String) (t : Transport) : ApiRequest × Except String JVal :=
  apiRequest apiUrl t "/locations" { method := "GET" }

/-- locationService.getOne: GET /locations/:id. -/
def getOne (apiUrl : String) (t : Transport) (id : String) :
    ApiRequest × Except String JVal :=
  apiRequest apiUrl t ("/locations/" ++ id) { method := "GET" }

/-- locationService.create: POST /locations with FormData. -/
def create (apiUrl : String) (t : Transport) (compId : Option String)
    (formData : List (String × String)) : ApiRequest × Except String JVal :=
  apiFormDataRequest apiUrl t compId "/locations" formData "POST"

/-- locationService.update: sends FormData to /locations/:id (the code
passes POST explicitly). -/
def update (apiUrl : String) (t : Transport) (compId : Option String)
    (id : String) (formData : List (String × String)) :
    ApiRequest × Except String JVal :=
  apiFormDataRequest apiUrl t compId ("/locations/" ++ id) formData "POST"

/-- locationService.delete: DELETE /locations/:id; the parsed body is
awaited and then discarded (Promise of void). -/
def delete (apiUrl : String) (t : Transport) (id : String) :
    ApiRequest × Except String Unit :=
  let r := apiRequest apiUrl t ("/locations/" ++ id) { method := "DELETE" }
  (r.1, r.2.map (fun _ => ()))

end locationService

namespace widgetConfigService

/-- widgetConfigService.getConfig: GET /widget-config. -/
def getConfig (apiUrl : String) (t : Transport) : ApiRequest × Except String JVal :=
  apiRequest apiUrl t "/widget-config" { method := "GET" }

/-- widgetConfigService.updateConfig: PUT /widget-config with the
JSON-encoded configuration as body. -/
def updateConfig (apiUrl : String) (t : Transport) (cfg : WidgetConfig) :
    ApiRequest × Except String JVal :=
  apiRequest apiUrl t "/widget-config"
    { method := "PUT", body := RequestBody.jsonText (stringifyConfig cfg) }

end widgetConfigService

/-! ## Module state and initializeWixClient (wix-integration.ts) -/

/-- The module-level mutable state of wix-integration.ts. -/
structure WixState where
  wixClientPresent : Bool
  instanceToken : Option String
  compId : Option String
  isInitialized : Bool
deriving DecidableEq, Repr

/-- The state at module load, after extracting the instance token from
the URL query string. -/
def initialState (urlInstance : Option String) : WixState :=
  { wixClientPresent := false, instanceToken := urlInstance,
    compId := none, isInitialized := false }

/-- generateCompId, with the clock reading and the eight random
characters taken as parameters. -/
def generateCompId (timestamp : Nat) (randomPart : String) : String :=
  "comp-" ++ toString timestamp ++ "-" ++ randomPart

/-- Environment for one run of initializeWixClient: whether createClient
throws, the shape and behaviour of the created widget module, and the
inputs of generateCompId. -/
structure SdkEnv where
  createClientFails : Bool
  hasWidgetGetProp : Bool
  getPropThrows : Bool
  getPropResult : Option String
  hasWidgetSetProp : Bool
  setPropThrows : Bool
  timestamp : Nat
  randomPart : String
deriving DecidableEq, Repr

/-- The pattern if compId is falsy then compId = generateCompId(). -/
def ensureCompId (o : Option String) (fresh : String) : Option String :=
  match o with
  | some i => some i
  | none => some fresh

/-- initializeWixClient: early return when already initialized with a
client; otherwise create the client, read compId from site data (the
value is adopted only when truthy), generate and persist a compId when
none is known, and mark initialization done. A createClient throw is
caught by the outer catch, which generates a fallback compId when none
exists, marks initialization done, and returns false; getProp and
setProp throws are caught by inner try blocks and do not change the
return value. -/
def initializeWixClient (env : SdkEnv) (s : WixState) : Bool × WixState :=
  if s.isInitialized && s.wixClientPresent then (true, s)
  else if env.createClientFails then
    (false,
     { s with compId := ensureCompId s.compId
                          (generateCompId env.timestamp env.randomPart),
              isInitialized := true })
  else
    let fromSite : Option String :=
      if env.hasWidgetGetProp then
        if env.getPropThrows then s.compId
        else
          match env.getPropResult with
          | some v => if v = "" then s.compId else some v
          | none => s.compId
      else s.compId
    (true,
     { s with wixClientPresent := true,
              compId := ensureCompId fromSite
                          (generateCompId env.timestamp env.randomPart),
              isInitialized := true })

/-- getCompId. -/
def getCompId (s : WixState) : Option String := s.compId

/-- setInstanceToken. -/
def setInstanceToken (token : String) (s : WixState) : WixState :=
  { s with instanceToken := some token }

/-- setCompId. -/
def setCompId (id : String) (s : WixState) : WixState :=
  { s with compId := some id }

/-! ## fetchWithAuth (wix-integration.ts) -/

/-- Set a key of a JS-object-like header map: overwrite the existing
entry or add the key. -/
def hset : List (String × String) → String → String → List (String × String)
  | [], k, v => [(k, v)]
  | kv :: rest, k, v =>
      if kv.1 = k then (k, v) :: rest else kv :: hset rest k v

/-- Read a key of a header map. -/
def hlookup : List (String × String) → String → Option String
  | [], _ => none
  | kv :: rest, k => if kv.1 = k then some kv.2 else hlookup rest k

/-- Environment for one call of fetchWithAuth: whether the client exists
and exposes fetchWithAuth, and whether that call throws. -/
structure FetchEnv where
  clientFetchAvail : Bool
  clientFetchThrows : Bool
deriving DecidableEq, Repr

/-- A fetch invocation: the URL and the headers it carries. -/
structure PlainReq where
  url : String
  headers : List (String × String)
deriving DecidableEq, Repr

/-- The outcome of fetchWithAuth: the response came from the Wix client
transport, or from the plain-fetch fallback. -/
inductive FetchOutcome where
  | viaWix (req : PlainReq)
  | viaPlain (req : PlainReq)
deriving DecidableEq, Repr

/-- The headers object built at the top of fetchWithAuth: the
Content-Type default, then the caller-supplied headers spread over it,
then X-Wix-Comp-Id assigned when compId is non-null. -/
def buildHeaders (s : WixState) (optHeaders : List (String × String)) :
    List (String × String) :=
  let h0 := hset [] "Content-Type" "application/json"
  let h1 := optHeaders.foldl (fun h kv => hset h kv.1 kv.2) h0
  match s.compId with
  | some c => hset h1 "X-Wix-Comp-Id" c
  | none => h1

/-- The Authorization value derived from the instance token. -/
def authValue (tok : String) : String :=
  if tok.startsWith "Bearer " then tok else "Bearer " ++ tok

/-- The headers of the fallback plain fetch: the built headers with
Authorization assigned when an instance token is set. -/
def fallbackHeaders (s : WixState) (optHeaders : List (String × String)) :
    List (String × String) :=
  match s.instanceToken with
  | some tok => hset (buildHeaders s optHeaders) "Authorization" (authValue tok)
  | none => buildHeaders s optHeaders

/-- fetchWithAuth: use the Wix client fetchWithAuth when available; when
it is unavailable or throws, fall back to a plain fetch of the same URL
with the built headers plus the manual Authorization token. -/
def fetchWithAuth (env : FetchEnv) (s : WixState) (url : String)
    (optHeaders : List (String × String)) : FetchOutcome :=
  if env.clientFetchAvail && !env.clientFetchThrows then
    FetchOutcome.viaWix { url := url, headers := buildHeaders s optHeaders }
  else
    FetchOutcome.viaPlain { url := url, headers := fallbackHeaders s optHeaders }

/-! ## getDashboardUrl (wix-integration.ts) -/

/-- A parsed URL as the platform URL class exposes it. -/
structure Url where
  scheme : String
  host : String
  path : String
  params : List (String × String)
deriving DecidableEq, Repr

/-- Remove every entry with the given key. -/
def dropKey : List (String × String) → String → List (String × String)
  | [], _ => []
  | kv :: rest, k => if kv.1 = k then dropKey rest k else kv :: dropKey rest k

/-- searchParams.set: replace the value of the first entry with the key
and drop later duplicates, or append the pair when the key is absent. -/
def setParam : List (String × String) → String → String → List (String × String)
  | [], k, v => [(k, v)]
  | kv :: rest, k, v =>
      if kv.1 = k then (k, v) :: dropKey rest k
      else kv :: setParam rest k v

/-- searchParams.get. -/
def lookupParam : List (String × String) → String → Option String
  | [], _ => none
  | kv :: rest, k => if kv.1 = k then some kv.2 else lookupParam rest k

/-- getDashboardUrl: set the instance parameter when an instance token
is known, then set the compId parameter when a compId is known. -/
def getDashboardUrl (s : WixState) (base : Url) : Url :=
  let u1 :=
    match s.instanceToken with
    | some t => { base with params := setParam base.params "instance" t }
    | none => base
  match s.compId with
  | some c => { u1 with params := setParam u1.params "compId" c }
  | none => u1

/-! ## The compact settings panel (WidgetSettingsCompact.tsx) -/

/-- The browser localStorage, as a map from keys to stored strings. -/
def LocalStorage := List (String × String)

/-- localStorage.getItem. -/
def lsGet (ls : LocalStorage) (k : String) : Option String := hlookup ls k

/-- localStorage.setItem. -/
def lsSet (ls : LocalStorage) (k : String) (v : String) : LocalStorage :=
  hset ls k v

/-- The cache key used by the compact panel. -/
def cfgKey : String := "mapsy-widget-config"

/-- The initial value of the config state: the cached record when the
cache holds one and it parses, the built-in defaults otherwise. The JSON
parser of the platform is abstracted as the parse argument. -/
def initConfig (parse : String → Option WidgetConfig) (ls : LocalStorage) :
    WidgetConfig :=
  match lsGet ls cfgKey with
  | some cached =>
      match parse cached with
      | some c => c
      | none => defaultConfig
  | none => defaultConfig

/-- The state of the compact panel that the claims concern: the config
state variable and the localStorage contents. -/
structure PanelState where
  config : WidgetConfig
  ls : LocalStorage

/-- fetchConfig: on a successful GET the server data becomes the config
state and is written to the cache; on a failure the state and the cache
are left unchanged (only a toast may be shown). -/
def fetchConfig (result : Except Unit WidgetConfig) (s : PanelState) :
    PanelState :=
  match result with
  | Except.ok data =>
      { s with config := data, ls := lsSet s.ls cfgKey (stringifyConfig data) }
  | Except.error _ => s

/-- One step of the save flow, for the trace of handleSave. -/
inductive SaveStep where
  | backendUpdate
  | widgetPush (ok : Bool)
  | cacheWrite
deriving DecidableEq, Repr

/-- handleSave: await the backend update; when it throws, the catch block
runs and nothing further happens; when it succeeds, push the config to
the widget (updateWidgetConfig, which never throws) and then write the
saved config to the cache. -/
def handleSave (env : PushEnv) (backendResult : Except Unit WidgetConfig)
    (s : PanelState) : PanelState × List SaveStep :=
  match backendResult with
  | Except.error _ => (s, [SaveStep.backendUpdate])
  | Except.ok _ =>
      let pushOk := (updateWidgetConfig env s.config).1
      ({ s with ls := lsSet s.ls cfgKey (stringifyConfig s.config) },
       [SaveStep.backendUpdate, SaveStep.widgetPush pushOk, SaveStep.cacheWrite])

/-! ## Helper lemmas on header maps and search parameters -/

theorem hlookup_hset_self (h : List (String × String)) (k v : String) :
    hlookup (hset h k v) k = some v := by
  induction h with
  | nil => simp [hset, hlookup]
  | cons kv rest ih =>
      by_cases hk : kv.1 = k
      · simp [hset, hlookup, hk]
      · simp [hset, hlookup, hk, ih]

theorem hlookup_hset_other (h : List (String × String)) (k v k2 : String)
    (hne : k2 ≠ k) : hlookup (hset h k v) k2 = hlookup h k2 := by
  induction h with
  | nil => simp [hset, hlookup, Ne.symm hne]
  | cons kv rest ih =>
      by_cases hk : kv.1 = k
      · simp [hset, hlookup, hk, Ne.symm hne]
      · simp [hset, hlookup, hk, ih]

theorem hlookup_foldl_of_none (opts h0 : List (String × String)) (key : String)
    (hnone : hlookup opts key = none) :
    hlookup (opts.foldl (fun h kv => hset h kv.1 kv.2) h0) key =
      hlookup h0 key := by
  induction opts generalizing h0 with
  | nil => simp
  | cons kv rest ih =>
      by_cases hk : kv.1 = key
      · simp [hlookup, hk] at hnone
      · have hrest : hlookup rest key = none := by
          simpa [hlookup, hk] using hnone
        have hstep : List.foldl (fun h p => hset h p.1 p.2) h0 (kv :: rest) =
            List.foldl (fun h p => hset h p.1 p.2) (hset h0 kv.1 kv.2) rest := rfl
        rw [hstep, ih (hset h0 kv.1 kv.2) hrest,
            hlookup_hset_other h0 kv.1 kv.2 key (Ne.symm hk)]

theorem lookupParam_dropKey_ne (ps : List (String × String)) (k k2 : String)
    (hne : k2 ≠ k) :
    lookupParam (dropKey ps k) k2 = lookupParam ps k2 := by
  induction ps with
  | nil => rfl
  | cons kv rest ih =>
      by_cases hk : kv.1 = k
      · simp [dropKey, hk, lookupParam, Ne.symm hne, ih]
      · simp [dropKey, hk, lookupParam, ih]

theorem lookupParam_setParam_self (ps : List (String × String)) (k v : String) :
    lookupParam (setParam ps k v) k = some v := by
  induction ps with
  | nil => simp [setParam, lookupParam]
  | cons kv rest ih =>
      by_cases hk : kv.1 = k
      · simp [setParam, lookupParam, hk]
      · simp [setParam, lookupParam, hk, ih]

theorem lookupParam_setParam_other (ps : List (String × String))
    (k v k2 : String) (hne : k2 ≠ k) :
    lookupParam (setParam ps k v) k2 = lookupParam ps k2 := by
  induction ps with
  | nil => simp [setParam, lookupParam, Ne.symm hne]
  | cons kv rest ih =>
      by_cases hk : kv.1 = k
      · have hne2 : kv.1 ≠ k2 := by rw [hk]; exact Ne.symm hne
        simp [setParam, lookupParam, hk, Ne.symm hne, hne2,
              lookupParam_dropKey_ne rest k k2 hne]
      · simp [setParam, lookupParam, hk, ih]

/-! ## Claim C1 -/

/-- C1 counterexample: the claim says the configuration record consists
of exactly the display options the spec names; but two WidgetConfig
records agreeing on every named display option can still differ, because
the record also carries the optional auth field. Here defaultConfig and
cfgWithAuth agree on all seven display options yet are distinct. -/
theorem C1_counterexample :
    toDisplayOptions defaultConfig = toDisplayOptions cfgWithAuth
    ∧ defaultConfig ≠ cfgWithAuth := by
  constructor
  · rfl
  · intro h
    simpa [defaultConfig, cfgWithAuth] using congrArg WidgetConfig.auth h

/-- C1 (amended): a WidgetConfig record consists of exactly the display
options the spec names (default view map or list, showHeader,
headerTitle, mapZoomLevel, primaryColor, widgetName with its
showWidgetName flag) plus one optional auth field: two records agreeing
on the display-option projection and on auth are equal. -/
theorem C1_config_shape (c1 c2 : WidgetConfig)
    (hdisp : toDisplayOptions c1 = toDisplayOptions c2)
    (hauth : c1.auth = c2.auth) : c1 = c2 := by
  cases c1
  cases c2
  simp [toDisplayOptions, SpecDisplayOptions.mk.injEq] at hdisp
  simp_all [WidgetConfig.mk.injEq]

/-- C1 witness: the amended theorem applied to two concrete records. -/
theorem C1_config_shape_witness : cfgWithAuth = cfgWithAuthCopy :=
  C1_config_shape cfgWithAuth cfgWithAuthCopy rfl rfl

/-! ## Claim C2 -/

/-- C2: for every configuration record, updateWidgetConfig first invokes
the SDK property setter with setProp of config and the JSON-encoded
configuration, then posts the MAPSY_CONFIG_UPDATE message to the parent
window and then to every frame of window.parent.frames in order,
regardless of which individual frames throw cross-origin errors
(hypotheses: the SDK setter is reachable, a parent window exists, and
the parent postMessage call itself does not throw). -/
theorem C2_propagation (env : PushEnv) (cfg : WidgetConfig)
    (havail : env.widgetSetPropAvail = true)
    (hparent : env.hasParent = true)
    (hok : env.parentPostThrows = false) :
    (updateWidgetConfig env cfg).2 =
      Ev.setPropCall "config" (stringifyConfig cfg)
        :: Ev.post Target.parentWindow (configMsg env cfg)
        :: (List.range env.frameThrows.length).map
             (fun i => Ev.post (Target.frame i) (configMsg env cfg)) := by
  cases hst : env.setPropThrows <;>
    simp [updateWidgetConfig, updateWidgetProperty, framePosts,
          havail, hparent, hok, hst]

/-- Concrete environment for the C2 witness: SDK setter available, a
parent window with two frames, the second of which throws. -/
def envC2 : PushEnv :=
  { widgetSetPropAvail := true, setPropThrows := false, hasParent := true,
    parentPostThrows := false, frameThrows := [false, true], now := 5 }

/-- C2 witness: the theorem at a concrete environment and the default
configuration. -/
theorem C2_propagation_witness :
    (updateWidgetConfig envC2 defaultConfig).2 =
      Ev.setPropCall "config" (stringifyConfig defaultConfig)
        :: Ev.post Target.parentWindow (configMsg envC2 defaultConfig)
        :: (List.range envC2.frameThrows.length).map
             (fun i => Ev.post (Target.frame i) (configMsg envC2 defaultConfig)) :=
  C2_propagation envC2 defaultConfig rfl rfl rfl

/-! ## Claim C3 -/

/-- Concrete environment in which the SDK channel is unavailable but the
postMessage broadcast completes. -/
def envSdkDown : PushEnv :=
  { widgetSetPropAvail := false, setPropThrows := false, hasParent := true,
    parentPostThrows := false, frameThrows := [], now := 0 }

/-- C3: updateWidgetConfig returns true whenever the postMessage
broadcast completes without throwing, and returns the SDK result
wixResult exactly when the parent postMessage throws; in particular, in
an environment where the SDK channel is unavailable (wixResult false) it
still returns true, so a true return does not imply SDK delivery. -/
theorem C3_best_effort (env : PushEnv) (cfg : WidgetConfig) :
    ((updateWidgetConfig env cfg).1 =
       if env.hasParent && env.parentPostThrows then wixResult env cfg else true)
    ∧ (updateWidgetConfig envSdkDown defaultConfig).1 = true
    ∧ wixResult envSdkDown defaultConfig = false := by
  refine ⟨?_, rfl, rfl⟩
  cases hp : env.hasParent <;> cases ht : env.parentPostThrows <;>
    simp [updateWidgetConfig, wixResult, hp, ht]

/-! ## Claim C4 -/

/-- Spec-side definition for C4, following the words of the claim: an
operation returns the parsed JSON body when the response is ok, and
throws an Error containing the HTTP status and the response text exactly
when the response is not ok. -/
def specOutcome (t : Transport) (req : ApiRequest) : Except String JVal :=
  if (t req).ok then Except.ok (t req).jsonBody
  else
    Except.error
      ("API Error (" ++ toString (t req).status ++ "): " ++ (t req).text)

/-- C4: locationService performs the CRUD operations through the REST
backend: getAll issues GET /locations, getOne issues GET /locations/:id,
create sends FormData to POST /locations, update sends FormData to
/locations/:id, delete issues DELETE /locations/:id; every operation
yields the parsed JSON body when the response is ok and an Error with
the HTTP status and response text exactly when it is not (delete then
discards the parsed body, resolving with void). -/
theorem C4_location_crud (apiUrl : String) (t : Transport) (id : String)
    (compId : Option String) (fd : List (String × String)) :
    ((locationService.getAll apiUrl t).1.method = "GET"
      ∧ (locationService.getAll apiUrl t).1.url = apiUrl ++ "/locations"
      ∧ (locationService.getAll apiUrl t).2 =
          specOutcome t (locationService.getAll apiUrl t).1)
    ∧ ((locationService.getOne apiUrl t id).1.method = "GET"
      ∧ (locationService.getOne apiUrl t id).1.url = apiUrl ++ "/locations/" ++ id
      ∧ (locationService.getOne apiUrl t id).2 =
          specOutcome t (locationService.getOne apiUrl t id).1)
    ∧ ((locationService.create apiUrl t compId fd).1.method = "POST"
      ∧ (locationService.create apiUrl t compId fd).1.url = apiUrl ++ "/locations"
      ∧ (locationService.create apiUrl t compId fd).1.body = RequestBody.form fd
      ∧ (locationService.create apiUrl t compId fd).2 =
          specOutcome t (locationService.create apiUrl t compId fd).1)
    ∧ ((locationService.update apiUrl t compId id fd).1.url =
          apiUrl ++ "/locations/" ++ id
      ∧ (locationService.update apiUrl t compId id fd).1.body = RequestBody.form fd
      ∧ (locationService.update apiUrl t compId id fd).2 =
          specOutcome t (locationService.update apiUrl t compId id fd).1)
    ∧ ((locationService.delete apiUrl t id).1.method = "DELETE"
      ∧ (locationService.delete apiUrl t id).1.url = apiUrl ++ "/locations/" ++ id
      ∧ (locationService.delete apiUrl t id).2 =
          Except.map (fun _ => ())
            (specOutcome t (locationService.delete apiUrl t id).1)) := by
  refine ⟨⟨rfl, ?_, rfl⟩, ⟨rfl, ?_, rfl⟩, ⟨rfl, rfl, rfl, rfl⟩,
         ⟨?_, rfl, rfl⟩, rfl, ?_, rfl⟩
  · rfl
  · simp [locationService.getOne, apiRequest, String.append_assoc]
  · simp [locationService.update, apiFormDataRequest, String.append_assoc]
  · simp [locationService.delete, apiRequest, String.append_assoc]

/-! ## Claims C5 and C9 -/

theorem ensureCompId_isSome (o : Option String) (fresh : String) :
    (ensureCompId o fresh).isSome = true := by
  cases o <;> rfl

theorem ensureCompId_of_isSome (o : Option String) (fresh : String)
    (h : o.isSome = true) : ensureCompId o fresh = o := by
  cases o
  · simp at h
  · rfl

/-- Concrete environment in which client creation succeeds but the
getProp property access throws. -/
def envGetPropThrows : SdkEnv :=
  { createClientFails := false, hasWidgetGetProp := true,
    getPropThrows := true, getPropResult := none,
    hasWidgetSetProp := true, setPropThrows := false,
    timestamp := 1, randomPart := "abcdefgh" }

/-- C5 counterexample: the claim says a run in which property access
throws returns false; but a getProp throw is caught by the inner try
block, and the run returns true. -/
theorem C5_counterexample :
    envGetPropThrows.getPropThrows = true
    ∧ (initializeWixClient envGetPropThrows (initialState none)).1 = true :=
  ⟨rfl, rfl⟩

/-- C5 (amended): initializeWixClient never propagates an exception (it
is a total step function); for any run that is not an early return, it
returns false exactly when SDK client creation throws, and in that case
the outer catch generates a fallback compId when none exists (keeping an
existing one) and marks initialization complete; property-access throws
are caught by inner handlers and the run still returns true. -/
theorem C5_init_error_handling (env : SdkEnv) (s : WixState)
    (hni : s.isInitialized = false) :
    (initializeWixClient env s).1 = !env.createClientFails
    ∧ (initializeWixClient env s).2.isInitialized = true
    ∧ (initializeWixClient env s).2.compId.isSome = true
    ∧ (env.createClientFails = true → s.compId.isSome = true →
        (initializeWixClient env s).2.compId = s.compId) := by
  cases hc : env.createClientFails with
  | false =>
      refine ⟨?_, ?_, ?_, ?_⟩ <;>
        simp [initializeWixClient, hni, hc, ensureCompId_isSome]
  | true =>
      refine ⟨?_, ?_, ?_, ?_⟩ <;>
        simp [initializeWixClient, hni, hc, ensureCompId_isSome]
      exact fun hsome => ensureCompId_of_isSome s.compId _ hsome

/-- Concrete environment in which client creation throws. -/
def envCreateFails : SdkEnv :=
  { createClientFails := true, hasWidgetGetProp := false,
    getPropThrows := false, getPropResult := none,
    hasWidgetSetProp := false, setPropThrows := false,
    timestamp := 2, randomPart := "qrstuvwx" }

/-- C5 witness: the amended theorem at a concrete failing environment
starting from the fresh module state. -/
theorem C5_init_error_handling_witness :
    (initializeWixClient envCreateFails (initialState (some "tok"))).1 =
      !envCreateFails.createClientFails
    ∧ (initializeWixClient envCreateFails (initialState (some "tok"))).2.isInitialized = true
    ∧ (initializeWixClient envCreateFails (initialState (some "tok"))).2.compId.isSome = true
    ∧ (envCreateFails.createClientFails = true →
        (initialState (some "tok")).compId.isSome = true →
        (initializeWixClient envCreateFails (initialState (some "tok"))).2.compId =
          (initialState (some "tok")).compId) :=
  C5_init_error_handling envCreateFails (initialState (some "tok")) rfl

/-- C9: starting from any state satisfying the module invariant (once
initialized, a compId is known), after a call to initializeWixClient the
state has a non-null compId and isInitialized true, whatever the call
returned; and when a call returns true, a subsequent call returns true
with the state unchanged, so getCompId is stable across repeated
initialization. -/
theorem C9_init_idempotent (env env2 : SdkEnv) (s : WixState)
    (hinv : s.isInitialized = true → s.compId.isSome = true) :
    ((initializeWixClient env s).2.compId.isSome = true
     ∧ (initializeWixClient env s).2.isInitialized = true)
    ∧ ((initializeWixClient env s).1 = true →
        initializeWixClient env2 (initializeWixClient env s).2 =
          (true, (initializeWixClient env s).2))
    ∧ ((initializeWixClient env s).1 = true →
        getCompId (initializeWixClient env2 (initializeWixClient env s).2).2 =
          getCompId (initializeWixClient env s).2) := by
  cases hinit : s.isInitialized <;> cases hpres : s.wixClientPresent <;>
    cases hc : env.createClientFails <;>
      simp_all [initializeWixClient, getCompId, ensureCompId_isSome]

/-- C9 witness: the theorem at a concrete environment pair and the fresh
module state. -/
theorem C9_init_idempotent_witness :
    ((initializeWixClient envGetPropThrows (initialState none)).2.compId.isSome = true
     ∧ (initializeWixClient envGetPropThrows (initialState none)).2.isInitialized = true)
    ∧ ((initializeWixClient envGetPropThrows (initialState none)).1 = true →
        initializeWixClient envCreateFails
            (initializeWixClient envGetPropThrows (initialState none)).2 =
          (true, (initializeWixClient envGetPropThrows (initialState none)).2))
    ∧ ((initializeWixClient envGetPropThrows (initialState none)).1 = true →
        getCompId (initializeWixClient envCreateFails
            (initializeWixClient envGetPropThrows (initialState none)).2).2 =
          getCompId (initializeWixClient envGetPropThrows (initialState none)).2) :=
  C9_init_idempotent envGetPropThrows envCreateFails (initialState none)
    (by decide)

/-! ## Claim C6 -/

theorem buildHeaders_content_type (s : WixState)
    (optHeaders : List (String × String))
    (hct : hlookup optHeaders "Content-Type" = none) :
    hlookup (buildHeaders s optHeaders) "Content-Type" =
      some "application/json" := by
  simp only [buildHeaders]
  cases s.compId with
  | some c =>
      rw [hlookup_hset_other _ _ _ _ (by decide),
          hlookup_foldl_of_none optHeaders _ _ hct]
      rfl
  | none =>
      rw [hlookup_foldl_of_none optHeaders _ _ hct]
      rfl

theorem buildHeaders_compId_some (s : WixState)
    (optHeaders : List (String × String)) (c : String)
    (hc : s.compId = some c) :
    hlookup (buildHeaders s optHeaders) "X-Wix-Comp-Id" = some c := by
  simp only [buildHeaders, hc]
  exact hlookup_hset_self _ _ _

theorem buildHeaders_compId_none (s : WixState)
    (optHeaders : List (String × String)) (hc : s.compId = none)
    (hx : hlookup optHeaders "X-Wix-Comp-Id" = none) :
    hlookup (buildHeaders s optHeaders) "X-Wix-Comp-Id" = none := by
  simp only [buildHeaders, hc]
  rw [hlookup_foldl_of_none optHeaders _ _ hx]
  rfl

/-- Concrete environment in which the SDK transport is unavailable. -/
def envNoWixFetch : FetchEnv :=
  { clientFetchAvail := false, clientFetchThrows := false }

/-- Caller headers that override the Content-Type default and inject a
comp-id header. -/
def hdrOverride : List (String × String) :=
  [("Content-Type", "text/plain"), ("X-Wix-Comp-Id", "zzz")]

/-- C6 counterexample: caller-supplied headers are spread over the
defaults, so with compId null and caller headers overriding Content-Type
and adding X-Wix-Comp-Id, the fallback fetch carries Content-Type
text/plain rather than application/json, and carries an X-Wix-Comp-Id
header although compId is null; this refutes the claim as stated. -/
theorem C6_counterexample :
    (initialState none).compId = none
    ∧ fetchWithAuth envNoWixFetch (initialState none) "https://api.example/x"
        hdrOverride =
        FetchOutcome.viaPlain
          { url := "https://api.example/x",
            headers := [("Content-Type", "text/plain"),
                        ("X-Wix-Comp-Id", "zzz")] }
    ∧ hlookup (fallbackHeaders (initialState none) hdrOverride)
        "Content-Type" = some "text/plain" := by
  refine ⟨rfl, ?_, ?_⟩ <;> rfl

/-- C6 (amended): when the Wix client fetchWithAuth is unavailable or
throws, fetchWithAuth performs a plain fetch of the same URL whose
headers are the Content-Type application/json default with the
caller-supplied headers spread over it, then X-Wix-Comp-Id assigned from
compId when compId is non-null, then Authorization assigned from the
instance token (prefixed with Bearer unless already so) when a token is
set; absent caller overrides, Content-Type is application/json and the
X-Wix-Comp-Id header is present exactly when compId is non-null. -/
theorem C6_fetch_fallback (env : FetchEnv) (s : WixState) (url : String)
    (optHeaders : List (String × String))
    (hfb : env.clientFetchAvail = false ∨ env.clientFetchThrows = true) :
    fetchWithAuth env s url optHeaders =
      FetchOutcome.viaPlain { url := url, headers := fallbackHeaders s optHeaders }
    ∧ (hlookup optHeaders "Content-Type" = none →
        hlookup (fallbackHeaders s optHeaders) "Content-Type" =
          some "application/json")
    ∧ (∀ c, s.compId = some c →
        hlookup (fallbackHeaders s optHeaders) "X-Wix-Comp-Id" = some c)
    ∧ (s.compId = none → hlookup optHeaders "X-Wix-Comp-Id" = none →
        hlookup (fallbackHeaders s optHeaders) "X-Wix-Comp-Id" = none)
    ∧ (∀ tok, s.instanceToken = some tok →
        hlookup (fallbackHeaders s optHeaders) "Authorization" =
          some (if tok.startsWith "Bearer " then tok
                else "Bearer " ++ tok)) := by
  refine ⟨?_, ?_, ?_, ?_, ?_⟩
  · rcases hfb with h | h <;> simp [fetchWithAuth, h]
  · intro hct
    have hb := buildHeaders_content_type s optHeaders hct
    simp only [fallbackHeaders]
    cases s.instanceToken with
    | some tok => rw [hlookup_hset_other _ _ _ _ (by decide)]; exact hb
    | none => exact hb
  · intro c hc
    have hb := buildHeaders_compId_some s optHeaders c hc
    simp only [fallbackHeaders]
    cases s.instanceToken with
    | some tok => rw [hlookup_hset_other _ _ _ _ (by decide)]; exact hb
    | none => exact hb
  · intro hc hx
    have hb := buildHeaders_compId_none s optHeaders hc hx
    simp only [fallbackHeaders]
    cases s.instanceToken with
    | some tok => rw [hlookup_hset_other _ _ _ _ (by decide)]; exact hb
    | none => exact hb
  · intro tok htok
    simp only [fallbackHeaders, htok, authValue]
    exact hlookup_hset_self _ _ _

/-- Concrete module state for the C6 witness: a compId and a bare
instance token are set. -/
def stateC6 : WixState :=
  { wixClientPresent := true, instanceToken := some "tok-abc",
    compId := some "comp-9", isInitialized := true }

/-- C6 witness: the amended theorem at a concrete state with the SDK
transport unavailable, read off on the Authorization header. -/
theorem C6_fetch_fallback_witness :
    hlookup (fallbackHeaders stateC6 []) "Authorization" =
      some (if ("tok-abc").startsWith "Bearer " then "tok-abc"
            else "Bearer " ++ "tok-abc") :=
  ((C6_fetch_fallback envNoWixFetch stateC6 "https://u" []
      (Or.inl rfl)).2.2.2.2) "tok-abc" rfl

/-! ## Claim C7 -/

/-- C7: the compact panel mirrors configuration state to localStorage
under the mapsy-widget-config key: the initial state comes from the
cache when present and parseable (defaults otherwise), a successful
fetch stores the server data in the state and overwrites the cache with
it, a failed fetch leaves both unchanged, and a successful save writes
the saved configuration to the cache. -/
theorem C7_cache_mirroring (parse : String → Option WidgetConfig)
    (ls : LocalStorage) (s : PanelState) (data : WidgetConfig)
    (env : PushEnv) :
    (lsGet ls cfgKey = none → initConfig parse ls = defaultConfig)
    ∧ (∀ str cfg, lsGet ls cfgKey = some str → parse str = some cfg →
        initConfig parse ls = cfg)
    ∧ ((fetchConfig (Except.ok data) s).config = data
       ∧ lsGet (fetchConfig (Except.ok data) s).ls cfgKey =
           some (stringifyConfig data))
    ∧ fetchConfig (Except.error ()) s = s
    ∧ lsGet (handleSave env (Except.ok data) s).1.ls cfgKey =
        some (stringifyConfig s.config) := by
  refine ⟨?_, ?_, ⟨rfl, ?_⟩, rfl, ?_⟩
  · intro hnone; simp [initConfig, hnone]
  · intro str cfg hsome hparse; simp [initConfig, hsome, hparse]
  · exact hlookup_hset_self _ _ _
  · exact hlookup_hset_self _ _ _

/-- Concrete panel state for witnesses. -/
def panelS0 : PanelState := { config := defaultConfig, ls := [] }

/-- C7 witness: the theorem at concrete inputs, read off on the
empty-cache initial state. -/
theorem C7_cache_mirroring_witness :
    initConfig (fun _ => none) [] = defaultConfig :=
  (C7_cache_mirroring (fun _ => none) [] panelS0 defaultConfig
      envSdkDown).1 rfl

/-! ## Claim C8 -/

/-- C8: getDashboardUrl sets the instance query parameter to the
instance token exactly when one is set and the compId parameter to the
component id exactly when one is set, returns the base URL unchanged
when neither is set, and never alters the scheme, host or path of the
base URL. -/
theorem C8_dashboard_url (s : WixState) (base : Url) :
    ((getDashboardUrl s base).scheme = base.scheme
     ∧ (getDashboardUrl s base).host = base.host
     ∧ (getDashboardUrl s base).path = base.path)
    ∧ lookupParam (getDashboardUrl s base).params "instance" =
        (match s.instanceToken with
         | some t => some t
         | none => lookupParam base.params "instance")
    ∧ lookupParam (getDashboardUrl s base).params "compId" =
        (match s.compId with
         | some c => some c
         | none => lookupParam base.params "compId")
    ∧ (s.instanceToken = none → s.compId = none →
        getDashboardUrl s base = base) := by
  cases ht : s.instanceToken with
  | none =>
      cases hc : s.compId with
      | none => simp [getDashboardUrl, ht, hc]
      | some c =>
          simp [getDashboardUrl, ht, hc, lookupParam_setParam_self,
                lookupParam_setParam_other base.params "compId" c "instance"
                  (by decide)]
  | some t =>
      cases hc : s.compId with
      | none =>
          simp [getDashboardUrl, ht, hc, lookupParam_setParam_self,
                lookupParam_setParam_other base.params "instance" t "compId"
                  (by decide)]
      | some c =>
          simp [getDashboardUrl, ht, hc, lookupParam_setParam_self,
                lookupParam_setParam_other (setParam base.params "instance" t)
                  "compId" c "instance" (by decide)]

/-- The default base URL of getDashboardUrl, parsed. -/
def baseUrl0 : Url :=
  { scheme := "https", host := "mapsy-dashboard.nextechspires.com",
    path := "/", params := [] }

/-- C8 witness: with neither a token nor a compId set, the dashboard URL
is the base URL unchanged. -/
theorem C8_dashboard_url_witness :
    getDashboardUrl (initialState none) baseUrl0 = baseUrl0 :=
  ((C8_dashboard_url (initialState none) baseUrl0).2.2.2) rfl rfl

/-! ## Claim C10 -/

/-- C10: in handleSave the cache entry is written only after the backend
update and the widget push have both completed (the cacheWrite step is
the last step of the successful trace, and updateWidgetConfig cannot
throw); when the backend update throws, the state and the cache are left
unchanged and no push or cache write happens. -/
theorem C10_save_atomic (env : PushEnv) (s : PanelState)
    (saved : WidgetConfig) :
    ((handleSave env (Except.error ()) s).1.ls = s.ls
     ∧ (handleSave env (Except.error ()) s).1.config = s.config
     ∧ (handleSave env (Except.error ()) s).2 = [SaveStep.backendUpdate])
    ∧ ((handleSave env (Except.ok saved) s).1.ls =
         lsSet s.ls cfgKey (stringifyConfig s.config)
       ∧ (handleSave env (Except.ok saved) s).2 =
           [SaveStep.backendUpdate,
            SaveStep.widgetPush (updateWidgetConfig env s.config).1,
            SaveStep.cacheWrite]) :=
  ⟨⟨rfl, rfl, rfl⟩, rfl, rfl⟩

end Mapsy
